import Mathlib

/-!
Shallow embedding of the `logo-manager` scripts of the gsoc-orgs repository
(`download_and_upload_logos.py`, `download_logos.py`), together with theorems
checking the natural-language specification against this embedding.

Modelling conventions:
* Python strings are Lean `String`s; URL and path manipulation is done over
  `List Char` to keep kernel evaluation simple.
* `urlparse(url).path` is embedded following CPython's `urllib.parse.urlsplit`
  / `urlparse` (scheme detection, netloc, fragment, query and params
  splitting, the leading C0-control/space strip and tab/CR/LF removal).
  `Path(p).suffix` follows CPython's `pathlib` (last component, ignoring empty
  and `.` components; an extension only counts when the final dot is neither
  the first nor the last character of the name).  Case folding uses ASCII
  lowering, which agrees with Python `str.lower` on ASCII extensions.
* MongoDB documents carry fields that are absent, null, or strings; query
  operators follow MongoDB semantics (a missing field compares equal to null,
  `$ne` also matches documents lacking the field).  Python dict literals are
  modelled as entry lists with last-occurrence-wins lookup, which is exactly
  what a duplicated key in a Python dict literal does.
* Network, object store and database side effects are modelled by explicit
  state (`World`) plus per-record oracles (`Effects`) saying which external
  calls succeed.  In accordance with pymongo semantics, `update_one` with a
  filter matching no document succeeds (with zero documents modified) rather
  than raising.
-/

namespace LogoManager

/-- Character class CPython `urlsplit` strips from the front of a URL:
C0 control characters and space (code points up to 0x20). -/
def isC0ControlOrSpace (c : Char) : Bool := c.val ≤ 32

/-- Characters CPython `urlsplit` removes anywhere in a URL: tab, CR, LF. -/
def isUnsafeUrlChar (c : Char) : Bool := c == '\t' || c == '\r' || c == '\n'

/-- Characters allowed in a URL scheme after the initial letter
(urllib `scheme_chars`: ASCII letters, digits, plus, minus, dot). -/
def schemeChar (c : Char) : Bool :=
  c.isAlpha || c.isDigit || c == '+' || c == '-' || c == '.'

/-- Scheme splitting as in CPython `urlsplit`: the text before the first colon
is a scheme when it is nonempty, starts with an ASCII letter and continues
with scheme characters; the scheme is lowercased and the remainder follows
the colon.  Otherwise the whole input is kept. -/
def splitScheme (cs : List Char) : String × List Char :=
  match cs.span (fun c => !(c == ':')) with
  | (_, []) => ("", cs)
  | (before, _ :: after) =>
    match before with
    | [] => ("", cs)
    | c0 :: restChars =>
      if c0.isAlpha && restChars.all schemeChar then
        (String.mk (before.map Char.toLower), after)
      else
        ("", cs)

/-- Netloc removal as in CPython `urlsplit`: when the remainder starts with
two slashes, drop everything up to (but excluding) the next slash, question
mark or hash. -/
def dropNetloc (cs : List Char) : List Char :=
  match cs with
  | '/' :: '/' :: rest =>
    rest.dropWhile (fun c => !(c == '/' || c == '?' || c == '#'))
  | _ => cs

/-- Split a character list on a separator character (like Python `str.split`
on a single character: adjacent separators give empty pieces). -/
def splitOnChar (c : Char) : List Char → List (List Char)
  | [] => [[]]
  | x :: xs =>
    let r := splitOnChar c xs
    if x == c then [] :: r
    else
      match r with
      | [] => [[x]]
      | h :: t => (x :: h) :: t

/-- Index of the last occurrence of a character in a list, if any. -/
def lastIdxOf (c : Char) (cs : List Char) : Option Nat :=
  match cs.reverse.findIdx? (fun x => x == c) with
  | none => none
  | some j => some (cs.length - 1 - j)

/-- Params splitting of CPython `urlparse._splitparams`: when the path
contains a slash, the params start at the first semicolon at or after the
last slash (if any); otherwise at the first semicolon.  Returns the path
with params removed. -/
def splitparams (cs : List Char) : List Char :=
  if cs.contains '/' then
    match lastIdxOf '/' cs with
    | none => cs
    | some k =>
      match (cs.drop k).findIdx? (fun x => x == ';') with
      | none => cs
      | some j => cs.take (k + j)
  else
    match cs.findIdx? (fun x => x == ';') with
    | none => cs
    | some i => cs.take i

/-- Schemes for which `urlparse` splits params (urllib `uses_params`). -/
def uses_params : List String :=
  ["", "ftp", "hdl", "prospero", "http", "imap", "https", "shttp", "rtsp",
   "rtspu", "sip", "sips", "mms", "sftp", "tel"]

/-- Embedding of Python `urlparse(url).path`: strip leading C0/space, remove
tab/CR/LF, split off scheme and netloc, drop fragment and query, and split
off params for schemes that use them. -/
def urlparse_path (url : String) : String :=
  let cs := (url.data.dropWhile isC0ControlOrSpace).filter
    (fun c => !(isUnsafeUrlChar c))
  let sr := splitScheme cs
  let rest2 := dropNetloc sr.2
  let rest3 := rest2.takeWhile (fun c => !(c == '#'))
  let path0 := rest3.takeWhile (fun c => !(c == '?'))
  let path1 :=
    if uses_params.contains sr.1 && path0.contains ';' then splitparams path0
    else path0
  String.mk path1

/-- Embedding of `pathlib.PurePosixPath(p).name`: the last path component,
ignoring empty components and `.` components. -/
def pathNameOf (p : String) : String :=
  String.mk ((((splitOnChar '/' p.data).filter
    (fun s => !(s.isEmpty) && !(s == ['.']))).getLast?).getD [])

/-- Embedding of `pathlib.PurePosixPath(p).suffix`: the part of the name from
its last dot on, provided that dot is neither the first nor the last
character of the name; otherwise the empty string. -/
def pathSuffixOf (p : String) : String :=
  let name := (pathNameOf p).data
  match lastIdxOf '.' name with
  | none => ""
  | some i =>
    if 0 < i && i + 1 < name.length then String.mk (name.drop i) else ""

/-- Python `str.lower` restricted to ASCII (extensions and the recognized
`DRY_RUN` values are ASCII, where this agrees with Python). -/
def lowerAscii (s : String) : String := String.mk (s.data.map Char.toLower)

/-- The shared expression `Path(urlparse(url).path).suffix.lower()` of
`get_content_type`, `generate_r2_key` and `get_extension_from_url`. -/
def url_ext (url : String) : String := lowerAscii (pathSuffixOf (urlparse_path url))

/-- The extension-to-MIME dict of `get_content_type`
(`download_and_upload_logos.py`). -/
def mimeMapping : List (String × String) :=
  [(".png", "image/png"), (".jpg", "image/jpeg"), (".jpeg", "image/jpeg"),
   (".gif", "image/gif"), (".svg", "image/svg+xml"), (".webp", "image/webp")]

/-- Embedding of `get_content_type` (`download_and_upload_logos.py`):
look the lowercased URL-path extension up in the fixed table, defaulting to
`image/png`. -/
def get_content_type (url : String) : String :=
  let ext := url_ext url
  ((mimeMapping.find? (fun p => p.1 == ext)).map (fun p => p.2)).getD "image/png"

/-- Embedding of `generate_r2_key` (`download_and_upload_logos.py`): the
lowercased URL-path extension (the source's `if not ext or ext == ""` is a
single emptiness test on a string), defaulting to `.png`, appended to the
image slug. -/
def generate_r2_key (image_slug logo_url : String) : String :=
  let ext := url_ext logo_url
  let ext := if ext == "" then ".png" else ext
  image_slug ++ ext

/-- Embedding of `get_extension_from_url` (`download_logos.py`). -/
def get_extension_from_url (url : String) : String :=
  let ext := url_ext url
  if ext == "" then ".png" else ext

/-- Modelled from the spec: `deriveKey` produces
`image_slug + lowercased(extension-of(url))`, defaulting to `.png` when the
URL path has no extension (spec section 4.3 / section 8). -/
def deriveKey_spec (imageSlug sourceUrl : String) : String :=
  imageSlug ++
    (if url_ext sourceUrl = "" then ".png" else url_ext sourceUrl)

/-- Modelled from the spec: `deriveContentType` maps the extension to a MIME
type via the fixed table, with unknown or missing extension defaulting to
`image/png` (spec section 4.3). -/
def deriveContentType_spec (sourceUrl : String) : String :=
  let e := url_ext sourceUrl
  if e = ".png" then "image/png"
  else if e = ".jpg" then "image/jpeg"
  else if e = ".jpeg" then "image/jpeg"
  else if e = ".gif" then "image/gif"
  else if e = ".svg" then "image/svg+xml"
  else if e = ".webp" then "image/webp"
  else "image/png"

/-- A BSON field value as far as this system is concerned: null or a string. -/
inductive BVal where
  | null : BVal
  | str : String → BVal
deriving DecidableEq, Repr

/-- An organization document.  A field of `none` is absent from the document;
`some .null` is a present null; `some (.str s)` is a present string.
`logo_uploaded_at` is an abstract timestamp. -/
structure OrgDoc where
  slug : Option BVal := none
  canonical_id : Option BVal := none
  image_slug : Option BVal := none
  image_url : Option BVal := none
  logoUrl : Option BVal := none
  logo_r2_url : Option BVal := none
  logo_local_filename : Option BVal := none
  logo_uploaded_at : Option Nat := none
deriving DecidableEq, Repr

/-- Python `org_doc.get(field)` seen as an optional string: absent fields and
null values both come back as Python `None`. -/
def pyStr : Option BVal → Option String
  | some (.str s) => some s
  | _ => none

/-- Python truthiness of an optional string: `None` and `""` are falsy. -/
def truthy : Option String → Bool
  | some s => !(s == "")
  | none => false

/-- Python `a or b` on optional strings. -/
def pyOr (a b : Option String) : Option String := if truthy a then a else b

/-- A value appearing in a MongoDB query dict: null, a string, or a boolean
(booleans only occur as `$exists` arguments here). -/
inductive QVal where
  | vnull : QVal
  | vstr : String → QVal
  | vbool : Bool → QVal
deriving DecidableEq, Repr

/-- Lookup in a Python dict literal given as its entry list: when a key is
written twice in a dict literal, the last occurrence wins. -/
def pyDictLookup (entries : List (String × QVal)) (k : String) : Option QVal :=
  (entries.reverse.find? (fun p => p.1 == k)).map (fun p => p.2)

/-- MongoDB equality between a document field and a query value: a missing
field compares equal to null; values of different types are unequal. -/
def mongoValEq (field : Option BVal) (v : QVal) : Bool :=
  match v, field with
  | .vnull, none => true
  | .vnull, some .null => true
  | .vnull, some (.str _) => false
  | .vstr s, some (.str t) => s == t
  | .vstr _, _ => false
  | .vbool _, _ => false

/-- MongoDB evaluation of an operator dict (`$exists` / `$ne`) on one field,
reading the operators out of the Python dict literal with
last-occurrence-wins semantics.  `$ne` matches when the field (missing being
null) is not equal to the operand. -/
def evalOpDict (entries : List (String × QVal)) (field : Option BVal) : Bool :=
  (match pyDictLookup entries "$exists" with
   | some (.vbool b) => field.isSome == b
   | _ => true) &&
  (match pyDictLookup entries "$ne" with
   | some v => !(mongoValEq field v)
   | _ => true)

/-- The operator dict literal with entries `"$exists": True`, `"$ne": None`,
`"$ne": ""` used (three times, verbatim) in the default-mode query of
`download_and_upload_logos.py`.  Written as the entry list of the Python
source; being a Python dict literal, its duplicated `"$ne"` key collapses to
the last occurrence when the dict is built. -/
def requiredFieldEntries : List (String × QVal) :=
  [("$exists", QVal.vbool true), ("$ne", QVal.vnull), ("$ne", QVal.vstr "")]

/-- The default-mode selection query of `download_and_upload_logos.py`
(`run`, no `--test-org` and no `--orgs`), evaluated on one document:
`$and` of (`logo_r2_url` absent, or equal to null, or equal to `""`),
(`image_url` or `logoUrl` satisfying `requiredFieldEntries`), and
(`image_slug` satisfying `requiredFieldEntries`). -/
def matchesDefaultQuery (o : OrgDoc) : Bool :=
  (evalOpDict [("$exists", QVal.vbool false)] o.logo_r2_url
    || mongoValEq o.logo_r2_url QVal.vnull
    || mongoValEq o.logo_r2_url (QVal.vstr "")) &&
  (evalOpDict requiredFieldEntries o.image_url
    || evalOpDict requiredFieldEntries o.logoUrl) &&
  evalOpDict requiredFieldEntries o.image_slug

/-- True exactly when the field holds a present, non-null, non-empty string. -/
def isNonEmptyStr : Option BVal → Bool
  | some (.str s) => !(s == "")
  | _ => false

/-- Modelled from the spec / claim C1: the record-selection predicate the
claim asserts for default mode: `logo_r2_url` absent, null or empty; at least
one of `image_url` / `logoUrl` present, non-null and non-empty; and
`image_slug` present, non-null and non-empty. -/
def claimedDefaultSelection (o : OrgDoc) : Bool :=
  (o.logo_r2_url == none || o.logo_r2_url == some BVal.null
    || o.logo_r2_url == some (BVal.str "")) &&
  (isNonEmptyStr o.image_url || isNonEmptyStr o.logoUrl) &&
  isNonEmptyStr o.image_slug

/-- A document whose `image_url` is present but null (no `logoUrl`): the
claim says default-mode selection excludes it. -/
def nullUrlDoc : OrgDoc :=
  { slug := some (BVal.str "unikraft"),
    canonical_id := some (BVal.str "gsoc-unikraft-2024"),
    image_slug := some (BVal.str "unikraft"),
    image_url := some BVal.null }

/-- A document whose `image_slug` is present but null: the claim says
default-mode selection excludes it. -/
def nullSlugDoc : OrgDoc :=
  { slug := some (BVal.str "jitsi"),
    canonical_id := some (BVal.str "gsoc-jitsi-2024"),
    image_slug := some BVal.null,
    image_url := some (BVal.str "https://x.org/logo.png") }

/-- The local logos directory, as a map from file name (inside `LOGOS_DIR`)
to abstract file content. -/
structure FileSys where
  files : List (String × Nat)
deriving DecidableEq, Repr

/-- Create or overwrite a file. -/
def FileSys.write (fs : FileSys) (name : String) (content : Nat) : FileSys :=
  ⟨(name, content) :: fs.files.filter (fun p => !(p.1 == name))⟩

/-- Content of a file, if present. -/
def FileSys.read (fs : FileSys) (name : String) : Option Nat :=
  (fs.files.find? (fun p => p.1 == name)).map (fun p => p.2)

/-- Python `local_path.exists()`. -/
def FileSys.hasFile (fs : FileSys) (name : String) : Bool :=
  (fs.read name).isSome

/-- The R2 bucket: object key to (content, content type). -/
structure R2Store where
  objects : List (String × Nat × String)
deriving DecidableEq, Repr

/-- Embedding of `put_object`: create or overwrite the object at a key. -/
def R2Store.put (st : R2Store) (key : String) (content : Nat)
    (ctype : String) : R2Store :=
  ⟨(key, content, ctype) :: st.objects.filter (fun p => !(p.1 == key))⟩

/-- The object stored at a key, if any. -/
def R2Store.getObj (st : R2Store) (key : String) : Option (Nat × String) :=
  (st.objects.find? (fun p => p.1 == key)).map (fun p => p.2)

/-- The `organizations` collection. -/
structure Db where
  organizations : List OrgDoc
deriving DecidableEq, Repr

/-- The `$set` document of the `update_one` call in `process_organization`
(`download_and_upload_logos.py`): sets `logo_local_filename`, `logo_r2_url`
and `logo_uploaded_at`. -/
def setLogoFields (r2_key public_url : String) (now : Nat) (o : OrgDoc) :
    OrgDoc :=
  { o with logo_local_filename := some (BVal.str r2_key),
           logo_r2_url := some (BVal.str public_url),
           logo_uploaded_at := some now }

/-- pymongo `update_one` on the filter by `canonical_id`: apply the update to
the first matching document; when no document matches, the call succeeds and
the collection is unchanged (pymongo raises only on connection or server
errors, never because the filter matched nothing). -/
def updateFirstMatch (cid : Option String) (upd : OrgDoc → OrgDoc) :
    List OrgDoc → List OrgDoc
  | [] => []
  | o :: rest =>
    if mongoValEq o.canonical_id (match cid with
        | none => QVal.vnull
        | some s => QVal.vstr s) then
      upd o :: rest
    else o :: updateFirstMatch cid upd rest

/-- The external state touched by `download_and_upload_logos.py`. -/
structure World where
  fs : FileSys
  store : R2Store
  db : Db
deriving DecidableEq, Repr

/-- Configuration read from the environment that
`process_organization` consults: `R2_PUBLIC_URL` (already right-stripped of
slashes; empty when unset), `R2_ACCOUNT_ID`, `R2_BUCKET_NAME`. -/
structure Config where
  publicUrl : String
  accountId : String
  bucket : String
deriving DecidableEq, Repr

/-- Per-record oracle for the external calls of one record's processing:
whether the HTTP download succeeds and what content it yields, whether the
R2 `put_object` succeeds, whether the `update_one` call raises (connection or
server error), and whether an unexpected exception escapes
`process_organization` (modelled as raised on entry; caught by `run`'s
per-record `try`/`except`). -/
structure Effects where
  downloadOk : Bool
  downloadContent : Nat
  uploadOk : Bool
  dbRaises : Bool
  raisesUnexpected : Bool
deriving DecidableEq, Repr

/-- Observable outcome of one `process_organization` call: the returned
boolean, the resulting external state, and which of the three external
operations were actually invoked. -/
structure ProcTrace where
  result : Bool
  world : World
  downloadCalled : Bool
  uploadCalled : Bool
  dbUpdateCalled : Bool
deriving DecidableEq, Repr

/-- Embedding of `process_organization` of `download_and_upload_logos.py`:
read the fields with `.get`, fall back from `image_url` to `logoUrl`, skip
(returning `False`) when the URL or the image slug is falsy, derive the key,
download to `LOGOS_DIR / r2_key`, stop successfully after the download when
`dry_run`, upload with the derived content type, build the public URL, and
update the document matched by `canonical_id`; the download, the upload and
the database update each return `False` on failure, keeping the local file. -/
def process_organization (cfg : Config) (eff : Effects) (w : World)
    (org : OrgDoc) (dry_run : Bool) (now : Nat) : ProcTrace :=
  let image_slug := pyStr org.image_slug
  let image_url := pyStr org.image_url
  let logo_url := pyOr image_url (pyStr org.logoUrl)
  if !truthy logo_url then ⟨false, w, false, false, false⟩
  else if !truthy image_slug then ⟨false, w, false, false, false⟩
  else
    let urlS := logo_url.getD ""
    let slugS := image_slug.getD ""
    let r2_key := generate_r2_key slugS urlS
    if !eff.downloadOk then ⟨false, w, true, false, false⟩
    else
      let w1 : World := { w with fs := w.fs.write r2_key eff.downloadContent }
      if dry_run then ⟨true, w1, true, false, false⟩
      else
        let content_type := get_content_type urlS
        if !eff.uploadOk then ⟨false, w1, true, true, false⟩
        else
          let w2 : World :=
            { w1 with store := w1.store.put r2_key eff.downloadContent content_type }
          let public_url :=
            if !(cfg.publicUrl == "") then cfg.publicUrl ++ "/" ++ r2_key
            else "https://" ++ cfg.accountId ++ ".r2.cloudflarestorage.com/"
              ++ cfg.bucket ++ "/" ++ r2_key
          if eff.dbRaises then ⟨false, w2, true, true, true⟩
          else
            let w3 : World :=
              { w2 with db := ⟨updateFirstMatch (pyStr org.canonical_id)
                  (setLogoFields r2_key public_url now) w2.db.organizations⟩ }
            ⟨true, w3, true, true, true⟩

/-- Totals accumulated by `run`'s loop, plus how many loop iterations ran and
the final external state.  `run` itself keeps only `success_count` and
`fail_count`; there is no skip counter in `download_and_upload_logos.py`. -/
structure RunTotals where
  processed : Nat
  succeeded : Nat
  failed : Nat
  world : World
deriving DecidableEq, Repr

/-- Embedding of the per-record loop of `run`
(`download_and_upload_logos.py`): each record is processed inside
`try`/`except`; a `True` return increments `success_count`, a `False` return
increments `fail_count`, and an unexpected exception is caught and also
increments `fail_count`; the loop always continues with the next record. -/
def runLoop (cfg : Config) (dry_run : Bool) (now : Nat) :
    World → List (OrgDoc × Effects) → RunTotals
  | w, [] => ⟨0, 0, 0, w⟩
  | w, (org, eff) :: rest =>
    if eff.raisesUnexpected then
      let t := runLoop cfg dry_run now w rest
      ⟨t.processed + 1, t.succeeded, t.failed + 1, t.world⟩
    else
      let tr := process_organization cfg eff w org dry_run now
      let t := runLoop cfg dry_run now tr.world rest
      if tr.result then ⟨t.processed + 1, t.succeeded + 1, t.failed, t.world⟩
      else ⟨t.processed + 1, t.succeeded, t.failed + 1, t.world⟩

/-- Parse of the `DRY_RUN` environment variable at module load:
`os.getenv("DRY_RUN", "false").lower() in ("1", "true", "yes")`. -/
def dryRunFromEnv (env : Option String) : Bool :=
  let v := lowerAscii (env.getD "false")
  v == "1" || v == "true" || v == "yes"

/-- The dry-run resolution at the top of `run`: the `dry_run` parameter
defaults to Python `None`, and only a `None` argument falls back to the
module-level `DRY_RUN` value. -/
def run_resolveDryRun (envVal : Bool) (arg : Option Bool) : Bool :=
  match arg with
  | none => envVal
  | some b => b

/-- The effective dry-run value when the tool is started from its
command-line entry point: argparse's `store_true` gives `args.dry_run` the
value `False` (not `None`) when the flag is absent, and `__main__` always
passes `dry_run=args.dry_run` to `run`. -/
def mainEffectiveDryRun (env : Option String) (cliFlagPresent : Bool) : Bool :=
  run_resolveDryRun (dryRunFromEnv env) (some cliFlagPresent)

/-- Per-record oracle for the download-only tool (`download_logos.py`). -/
structure DlEffects where
  downloadOk : Bool
  downloadContent : Nat
deriving DecidableEq, Repr

/-- Observable outcome of one `process_organization` call of
`download_logos.py`. -/
structure DlTrace where
  result : Bool
  fs : FileSys
  downloadCalled : Bool
deriving DecidableEq, Repr

/-- Embedding of `process_organization` of `download_logos.py`: same field
reading and skip checks as the upload tool, file name
`image_slug + get_extension_from_url(url)`; when the local file already
exists and `force` is not set, return `True` without downloading; otherwise
download (overwriting on success). -/
def dl_process_organization (eff : DlEffects) (fs : FileSys) (org : OrgDoc)
    (force : Bool) : DlTrace :=
  let image_slug := pyStr org.image_slug
  let logo_url := pyOr (pyStr org.image_url) (pyStr org.logoUrl)
  if !truthy logo_url then ⟨false, fs, false⟩
  else if !truthy image_slug then ⟨false, fs, false⟩
  else
    let ext := get_extension_from_url (logo_url.getD "")
    let filename := image_slug.getD "" ++ ext
    if fs.hasFile filename && !force then ⟨true, fs, false⟩
    else if !eff.downloadOk then ⟨false, fs, true⟩
    else ⟨true, fs.write filename eff.downloadContent, true⟩

/-- The MIME type the fixed table of `get_content_type` associates to an
extension, if any. -/
def mimeOfExt (ext : String) : Option String :=
  (mimeMapping.find? (fun p => p.1 == ext)).map (fun p => p.2)

/-- A sample configuration with a public base URL set. -/
def cfgDemo : Config :=
  ⟨"https://cdn.example.org", "acct", "logos"⟩

/-- A fully populated eligible organization document. -/
def orgUnikraft : OrgDoc :=
  { slug := some (BVal.str "unikraft"),
    canonical_id := some (BVal.str "gsoc-unikraft-2024"),
    image_slug := some (BVal.str "unikraft"),
    image_url := some (BVal.str "https://x.org/logo.png") }

/-- A document with a different canonical id. -/
def orgOther : OrgDoc :=
  { slug := some (BVal.str "other"),
    canonical_id := some (BVal.str "gsoc-other-2020") }

/-- A document with none of the relevant fields. -/
def orgEmptyFields : OrgDoc := {}

/-- A world whose database does not contain `orgUnikraft`'s canonical id. -/
def worldNoMatch : World := ⟨⟨[]⟩, ⟨[]⟩, ⟨[orgOther]⟩⟩

/-- An empty world. -/
def worldEmpty : World := ⟨⟨[]⟩, ⟨[]⟩, ⟨[]⟩⟩

/-- Oracle under which every external call succeeds. -/
def effAllOk : Effects := ⟨true, 7, true, false, false⟩

/-- Oracle under which download and upload succeed but the database update
raises. -/
def effDbRaise : Effects := ⟨true, 7, true, true, false⟩

/-- Oracle under which the record's processing raises an unexpected
exception. -/
def effUnexpected : Effects := ⟨true, 7, true, false, true⟩

/-- Download-only oracle whose download succeeds with content 9. -/
def dlEffDemo : DlEffects := ⟨true, 9⟩

/-- A local directory already holding `unikraft.png` with content 3. -/
def fsDemo : FileSys := ⟨[("unikraft.png", 3)]⟩

/-- A database holding only `orgOther`. -/
def dbDemo : Db := ⟨[orgOther]⟩

/-- Helper: the loop of `run` iterates once per selected record, whatever the
per-record outcomes are. -/
theorem runLoop_processed_len (cfg : Config) (dry : Bool) (now : Nat) :
    ∀ (recs : List (OrgDoc × Effects)) (w : World),
      (runLoop cfg dry now w recs).processed = recs.length := by
  intro recs
  induction recs with
  | nil => intro w; rfl
  | cons pe rest ih =>
    intro w
    obtain ⟨org, eff⟩ := pe
    have h1 := ih w
    have h2 := ih (process_organization cfg eff w org dry now).world
    simp only [runLoop, List.length_cons]
    by_cases h : eff.raisesUnexpected = true
    · rw [if_pos h]
      dsimp only
      omega
    · rw [if_neg h]
      by_cases hr : (process_organization cfg eff w org dry now).result = true
      · rw [if_pos hr]
        dsimp only
        omega
      · rw [if_neg hr]
        dsimp only
        omega

/-- Helper: every iterated record is counted exactly once, as a success or
as a failure. -/
theorem runLoop_counts_sum (cfg : Config) (dry : Bool) (now : Nat) :
    ∀ (recs : List (OrgDoc × Effects)) (w : World),
      (runLoop cfg dry now w recs).succeeded
        + (runLoop cfg dry now w recs).failed = recs.length := by
  intro recs
  induction recs with
  | nil => intro w; rfl
  | cons pe rest ih =>
    intro w
    obtain ⟨org, eff⟩ := pe
    have h1 := ih w
    have h2 := ih (process_organization cfg eff w org dry now).world
    simp only [runLoop, List.length_cons]
    by_cases h : eff.raisesUnexpected = true
    · rw [if_pos h]
      dsimp only
      omega
    · rw [if_neg h]
      by_cases hr : (process_organization cfg eff w org dry now).result = true
      · rw [if_pos hr]
        dsimp only
        omega
      · rw [if_neg hr]
        dsimp only
        omega

/-- Claim C1: the claim says default-mode selection excludes records whose
`image_url` is present but null (with `logoUrl` absent) and records whose
`image_slug` is present but null.  In the source the operator dict is the
Python literal with entries `"$exists": True`, `"$ne": None`, `"$ne": ""`,
whose duplicated `"$ne"` key keeps only the `"$ne": ""` entry, so the query
actually selects both kinds of record: the code contradicts the intent
written in its own query literal. -/
theorem C1_default_query_selects_null_fields :
    matchesDefaultQuery nullUrlDoc = true
    ∧ claimedDefaultSelection nullUrlDoc = false
    ∧ matchesDefaultQuery nullSlugDoc = true
    ∧ claimedDefaultSelection nullSlugDoc = false := by
  decide

/-- Claim C7: the claim says the environment-sourced dry-run option makes
every record skip the upload and database write when the tool is started
from the command line without `--dry-run`.  In the source, argparse's
`store_true` makes `args.dry_run` equal to `False` (not `None`) when the
flag is absent, `__main__` always passes it to `run`, and `run` only falls
back to the `DRY_RUN` environment value on `None`: the environment option is
ignored and the upload and database update are still invoked. -/
theorem C7_env_dry_run_ignored_via_cli :
    dryRunFromEnv (some "true") = true
    ∧ mainEffectiveDryRun (some "true") false = false
    ∧ mainEffectiveDryRun (some "1") false = false
    ∧ (process_organization cfgDemo effAllOk worldEmpty orgUnikraft
        (mainEffectiveDryRun (some "true") false) 5).uploadCalled = true
    ∧ (process_organization cfgDemo effAllOk worldEmpty orgUnikraft
        (mainEffectiveDryRun (some "true") false) 5).dbUpdateCalled = true
    ∧ run_resolveDryRun (dryRunFromEnv (some "true")) none = true := by
  decide

/-- Helper: writing a file then reading it back yields the written content. -/
theorem FileSys.read_write (fs : FileSys) (n : String) (c : Nat) :
    (fs.write n c).read n = some c := by
  simp [FileSys.write, FileSys.read, List.find?]

/-- Helper: a written file is present. -/
theorem FileSys.hasFile_write (fs : FileSys) (n : String) (c : Nat) :
    (fs.write n c).hasFile n = true := by
  simp [FileSys.hasFile, FileSys.read_write]

/-- Helper: putting an object then fetching it yields the stored pair. -/
theorem R2Store.getObj_put (st : R2Store) (k : String) (c : Nat) (t : String) :
    (st.put k c t).getObj k = some (c, t) := by
  simp [R2Store.put, R2Store.getObj, List.find?]

/-- Claim C5: per-record failures, including unexpected exceptions, are
caught and counted; the loop still iterates every record of the batch and
every record contributes to exactly one of the two counters. -/
theorem C5_single_record_failure_not_terminal :
    (∀ (cfg : Config) (dry : Bool) (now : Nat) (w : World)
        (recs : List (OrgDoc × Effects)),
      (runLoop cfg dry now w recs).processed = recs.length
      ∧ (runLoop cfg dry now w recs).succeeded
          + (runLoop cfg dry now w recs).failed = recs.length)
    ∧ (∀ (cfg : Config) (dry : Bool) (now : Nat) (w : World) (org : OrgDoc)
        (eff : Effects) (rest : List (OrgDoc × Effects)),
        eff.raisesUnexpected = true →
        (runLoop cfg dry now w ((org, eff) :: rest)).failed
          = (runLoop cfg dry now w rest).failed + 1
        ∧ (runLoop cfg dry now w ((org, eff) :: rest)).succeeded
          = (runLoop cfg dry now w rest).succeeded
        ∧ (runLoop cfg dry now w ((org, eff) :: rest)).processed
          = rest.length + 1) := by
  constructor
  · intro cfg dry now w recs
    exact ⟨runLoop_processed_len cfg dry now recs w,
      runLoop_counts_sum cfg dry now recs w⟩
  · intro cfg dry now w org eff rest h
    simp only [runLoop]
    rw [if_pos h]
    dsimp only
    refine ⟨rfl, rfl, ?_⟩
    rw [runLoop_processed_len]

/-- Witness for C5 at a concrete batch with an unexpected exception. -/
theorem C5_single_record_failure_not_terminal_witness :
    effUnexpected.raisesUnexpected = true
    ∧ (runLoop cfgDemo false 0 worldEmpty [(orgUnikraft, effUnexpected)]).failed
        = (runLoop cfgDemo false 0 worldEmpty []).failed + 1
    ∧ (runLoop cfgDemo false 0 worldEmpty [(orgUnikraft, effUnexpected)]).succeeded
        = (runLoop cfgDemo false 0 worldEmpty []).succeeded
    ∧ (runLoop cfgDemo false 0 worldEmpty [(orgUnikraft, effUnexpected)]).processed
        = List.length ([] : List (OrgDoc × Effects)) + 1 :=
  ⟨rfl, C5_single_record_failure_not_terminal.2 cfgDemo false 0 worldEmpty
    orgUnikraft effUnexpected [] rfl⟩

/-- Counterexample to claim C6: a record with neither source URL nor image
slug is counted by `run` of `download_and_upload_logos.py` as a failure
(there is no skip counter); the claim says the failure counter stays
unchanged for that record. -/
theorem C6_missing_fields_failure_count_cex :
    (runLoop cfgDemo false 0 worldEmpty [(orgEmptyFields, effAllOk)]).failed = 1
    ∧ (runLoop cfgDemo false 0 worldEmpty [(orgEmptyFields, effAllOk)]).succeeded
        = 0 := by
  decide

/-- Claim C6 as amended: in `download_and_upload_logos.py`, a record missing
its source URL or its `image_slug` makes `process_organization` return
`False` without touching any external state, and the orchestrator counts it
in `fail_count` (its only counters are `success_count` and `fail_count`). -/
theorem C6_missing_fields_increment_fail_count
    (cfg : Config) (eff : Effects) (w : World) (org : OrgDoc) (dry : Bool)
    (now : Nat) (rest : List (OrgDoc × Effects))
    (hx : eff.raisesUnexpected = false)
    (hmiss : truthy (pyOr (pyStr org.image_url) (pyStr org.logoUrl)) = false
      ∨ truthy (pyStr org.image_slug) = false) :
    process_organization cfg eff w org dry now = ⟨false, w, false, false, false⟩
    ∧ (runLoop cfg dry now w ((org, eff) :: rest)).failed
        = (runLoop cfg dry now w rest).failed + 1
    ∧ (runLoop cfg dry now w ((org, eff) :: rest)).succeeded
        = (runLoop cfg dry now w rest).succeeded := by
  have htr : process_organization cfg eff w org dry now
      = ⟨false, w, false, false, false⟩ := by
    rcases hmiss with h | h
    · simp [process_organization, h]
    · cases hb : truthy (pyOr (pyStr org.image_url) (pyStr org.logoUrl)) with
      | false => simp [process_organization, hb]
      | true => simp [process_organization, hb, h]
  refine ⟨htr, ?_, ?_⟩
  · simp only [runLoop]
    rw [if_neg (by simp [hx]), htr]
    rfl
  · simp only [runLoop]
    rw [if_neg (by simp [hx]), htr]
    rfl

/-- Witness for the amended C6 at a concrete record with no source fields. -/
theorem C6_missing_fields_increment_fail_count_witness :
    effAllOk.raisesUnexpected = false
    ∧ (truthy (pyOr (pyStr orgEmptyFields.image_url)
          (pyStr orgEmptyFields.logoUrl)) = false
        ∨ truthy (pyStr orgEmptyFields.image_slug) = false)
    ∧ (process_organization cfgDemo effAllOk worldEmpty orgEmptyFields false 3
          = ⟨false, worldEmpty, false, false, false⟩
      ∧ (runLoop cfgDemo false 3 worldEmpty [(orgEmptyFields, effAllOk)]).failed
          = (runLoop cfgDemo false 3 worldEmpty []).failed + 1
      ∧ (runLoop cfgDemo false 3 worldEmpty [(orgEmptyFields, effAllOk)]).succeeded
          = (runLoop cfgDemo false 3 worldEmpty []).succeeded) :=
  ⟨rfl, Or.inl rfl,
    C6_missing_fields_increment_fail_count cfgDemo effAllOk worldEmpty
      orgEmptyFields false 3 [] rfl (Or.inl rfl)⟩

/-- Counterexample to claim C3: when the upload succeeds and the database
update is given a `canonical_id` matching no record (the claim's own
example of an update failure), pymongo's `update_one` returns normally with
zero documents matched, so `process_organization` returns `True`: the record
is counted as a success, the failure counter stays at zero, and the database
is unchanged — the claim says the outcome is a failure with the failure
counter incremented by one. -/
theorem C3_wrong_identifier_counted_as_success :
    (runLoop cfgDemo false 5 worldNoMatch [(orgUnikraft, effAllOk)]).succeeded = 1
    ∧ (runLoop cfgDemo false 5 worldNoMatch [(orgUnikraft, effAllOk)]).failed = 0
    ∧ (runLoop cfgDemo false 5 worldNoMatch
        [(orgUnikraft, effAllOk)]).world.db = worldNoMatch.db
    ∧ (process_organization cfgDemo effAllOk worldNoMatch orgUnikraft
        false 5).result = true := by
  decide

/-- Claim C3 as amended: for every record where the upload succeeds and the
database update raises an error, the outcome is a failure: the returned
world keeps the database unchanged, the local file and the uploaded object
remain, the failure counter increments by one and the loop still iterates
the remaining records.  (A wrong identifier matching no record is not such a
failure: `update_one` then succeeds vacuously, see the counterexample.) -/
theorem C3_db_update_raise_is_failure
    (cfg : Config) (eff : Effects) (w : World) (org : OrgDoc)
    (url slug : String) (now : Nat) (rest : List (OrgDoc × Effects))
    (hu : pyOr (pyStr org.image_url) (pyStr org.logoUrl) = some url)
    (hu0 : url ≠ "") (hs : pyStr org.image_slug = some slug) (hs0 : slug ≠ "")
    (hd : eff.downloadOk = true) (hup : eff.uploadOk = true)
    (hdb : eff.dbRaises = true) (hx : eff.raisesUnexpected = false) :
    (process_organization cfg eff w org false now).result = false
    ∧ (process_organization cfg eff w org false now).world.db = w.db
    ∧ (process_organization cfg eff w org false now).world.fs.read
        (generate_r2_key slug url) = some eff.downloadContent
    ∧ (process_organization cfg eff w org false now).world.store.getObj
        (generate_r2_key slug url)
        = some (eff.downloadContent, get_content_type url)
    ∧ (runLoop cfg false now w ((org, eff) :: rest)).failed
        = (runLoop cfg false now
            (process_organization cfg eff w org false now).world rest).failed + 1
    ∧ (runLoop cfg false now w ((org, eff) :: rest)).processed
        = rest.length + 1 := by
  have hu' : (url == "") = false := by simp [hu0]
  have hs' : (slug == "") = false := by simp [hs0]
  have htr : process_organization cfg eff w org false now
      = ⟨false,
         ⟨w.fs.write (generate_r2_key slug url) eff.downloadContent,
          w.store.put (generate_r2_key slug url) eff.downloadContent
            (get_content_type url),
          w.db⟩,
         true, true, true⟩ := by
    simp [process_organization, hu, hs, hd, hup, hdb, truthy, hu', hs']
  rw [htr]
  refine ⟨rfl, rfl, FileSys.read_write _ _ _, R2Store.getObj_put _ _ _ _, ?_, ?_⟩
  · simp only [runLoop]
    rw [if_neg (by simp [hx]), htr]
    rfl
  · rw [runLoop_processed_len]
    rfl

/-- Witness for the amended C3 at a concrete record and database. -/
theorem C3_db_update_raise_is_failure_witness :
    (process_organization cfgDemo effDbRaise worldNoMatch orgUnikraft
        false 5).result = false
    ∧ (process_organization cfgDemo effDbRaise worldNoMatch orgUnikraft
        false 5).world.db = worldNoMatch.db
    ∧ (process_organization cfgDemo effDbRaise worldNoMatch orgUnikraft
        false 5).world.fs.read
          (generate_r2_key "unikraft" "https://x.org/logo.png")
        = some effDbRaise.downloadContent
    ∧ (process_organization cfgDemo effDbRaise worldNoMatch orgUnikraft
        false 5).world.store.getObj
          (generate_r2_key "unikraft" "https://x.org/logo.png")
        = some (effDbRaise.downloadContent,
            get_content_type "https://x.org/logo.png")
    ∧ (runLoop cfgDemo false 5 worldNoMatch [(orgUnikraft, effDbRaise)]).failed
        = (runLoop cfgDemo false 5
            (process_organization cfgDemo effDbRaise worldNoMatch orgUnikraft
              false 5).world []).failed + 1
    ∧ (runLoop cfgDemo false 5 worldNoMatch
        [(orgUnikraft, effDbRaise)]).processed
        = List.length ([] : List (OrgDoc × Effects)) + 1 :=
  C3_db_update_raise_is_failure cfgDemo effDbRaise worldNoMatch orgUnikraft
    "https://x.org/logo.png" "unikraft" 5 [] rfl (by decide) rfl (by decide)
    rfl rfl rfl rfl

/-- Claim C4: in dry-run mode `process_organization` never invokes the
upload or the database update and leaves the store and the database exactly
as they were, for every record; and for an eligible record whose download
succeeds it performs the download, leaves the downloaded file present, and
returns `True`. -/
theorem C4_dry_run_frame :
    (∀ (cfg : Config) (eff : Effects) (w : World) (org : OrgDoc) (now : Nat),
      (process_organization cfg eff w org true now).uploadCalled = false
      ∧ (process_organization cfg eff w org true now).dbUpdateCalled = false
      ∧ (process_organization cfg eff w org true now).world.store = w.store
      ∧ (process_organization cfg eff w org true now).world.db = w.db)
    ∧ (∀ (cfg : Config) (eff : Effects) (w : World) (org : OrgDoc)
        (url slug : String) (now : Nat),
        pyOr (pyStr org.image_url) (pyStr org.logoUrl) = some url → url ≠ "" →
        pyStr org.image_slug = some slug → slug ≠ "" →
        eff.downloadOk = true →
        (process_organization cfg eff w org true now).result = true
        ∧ (process_organization cfg eff w org true now).downloadCalled = true
        ∧ (process_organization cfg eff w org true now).world.fs.read
            (generate_r2_key slug url) = some eff.downloadContent) := by
  constructor
  · intro cfg eff w org now
    simp only [process_organization]
    repeat' split
    all_goals first
      | exact ⟨rfl, rfl, rfl, rfl⟩
      | simp_all
  · intro cfg eff w org url slug now hu hu0 hs hs0 hd
    have hu' : (url == "") = false := by simp [hu0]
    have hs' : (slug == "") = false := by simp [hs0]
    have htr : process_organization cfg eff w org true now
        = ⟨true,
           ⟨w.fs.write (generate_r2_key slug url) eff.downloadContent,
            w.store, w.db⟩,
           true, false, false⟩ := by
      simp [process_organization, hu, hs, hd, truthy, hu', hs']
    rw [htr]
    exact ⟨rfl, rfl, FileSys.read_write _ _ _⟩

/-- Witness for C4 at a concrete eligible record. -/
theorem C4_dry_run_frame_witness :
    (process_organization cfgDemo effAllOk worldNoMatch orgUnikraft
        true 5).result = true
    ∧ (process_organization cfgDemo effAllOk worldNoMatch orgUnikraft
        true 5).downloadCalled = true
    ∧ (process_organization cfgDemo effAllOk worldNoMatch orgUnikraft
        true 5).world.fs.read
          (generate_r2_key "unikraft" "https://x.org/logo.png")
        = some effAllOk.downloadContent :=
  C4_dry_run_frame.2 cfgDemo effAllOk worldNoMatch orgUnikraft
    "https://x.org/logo.png" "unikraft" 5 rfl (by decide) rfl (by decide) rfl

/-- Claim C2: the storage key is `image_slug` plus the lowercased URL-path
extension, defaulting to `.png`; it agrees with the spec's `deriveKey`, with
the download-only tool's file name, and it is the single flat name under
which the downloaded file and the uploaded object are stored. -/
theorem C2_storage_key_derivation :
    generate_r2_key "unikraft" "https://x.org/logo.SVG" = "unikraft.svg"
    ∧ generate_r2_key "jitsi" "https://x.org/logo" = "jitsi.png"
    ∧ (∀ slug url, generate_r2_key slug url = deriveKey_spec slug url)
    ∧ (∀ slug url,
        generate_r2_key slug url = slug ++ get_extension_from_url url)
    ∧ (∀ (cfg : Config) (eff : Effects) (org : OrgDoc) (url slug : String)
        (now : Nat) (db : Db),
        pyOr (pyStr org.image_url) (pyStr org.logoUrl) = some url → url ≠ "" →
        pyStr org.image_slug = some slug → slug ≠ "" →
        eff.downloadOk = true → eff.uploadOk = true → eff.dbRaises = false →
        (process_organization cfg eff ⟨⟨[]⟩, ⟨[]⟩, db⟩ org
            false now).world.fs.files
          = [(generate_r2_key slug url, eff.downloadContent)]
        ∧ (process_organization cfg eff ⟨⟨[]⟩, ⟨[]⟩, db⟩ org
            false now).world.store.objects
          = [(generate_r2_key slug url, eff.downloadContent,
              get_content_type url)]) := by
  refine ⟨by decide, by decide, ?_, ?_, ?_⟩
  · intro slug url
    simp only [generate_r2_key, deriveKey_spec]
    by_cases h : url_ext url = "" <;> simp [h]
  · intro slug url
    rfl
  · intro cfg eff org url slug now db hu hu0 hs hs0 hd hup hdb
    have hu' : (url == "") = false := by simp [hu0]
    have hs' : (slug == "") = false := by simp [hs0]
    have hfs : (process_organization cfg eff ⟨⟨[]⟩, ⟨[]⟩, db⟩ org
        false now).world.fs
        = FileSys.write ⟨[]⟩ (generate_r2_key slug url) eff.downloadContent := by
      simp [process_organization, hu, hs, hd, hup, hdb, truthy, hu', hs']
    have hst : (process_organization cfg eff ⟨⟨[]⟩, ⟨[]⟩, db⟩ org
        false now).world.store
        = R2Store.put ⟨[]⟩ (generate_r2_key slug url) eff.downloadContent
            (get_content_type url) := by
      simp [process_organization, hu, hs, hd, hup, hdb, truthy, hu', hs']
    constructor
    · rw [hfs]
      simp [FileSys.write]
    · rw [hst]
      simp [R2Store.put]

/-- Witness for C2 at a concrete record: file list and object list both hold
exactly the derived key. -/
theorem C2_storage_key_derivation_witness :
    (process_organization cfgDemo effAllOk ⟨⟨[]⟩, ⟨[]⟩, dbDemo⟩ orgUnikraft
        false 5).world.fs.files
      = [(generate_r2_key "unikraft" "https://x.org/logo.png",
          effAllOk.downloadContent)]
    ∧ (process_organization cfgDemo effAllOk ⟨⟨[]⟩, ⟨[]⟩, dbDemo⟩ orgUnikraft
        false 5).world.store.objects
      = [(generate_r2_key "unikraft" "https://x.org/logo.png",
          effAllOk.downloadContent,
          get_content_type "https://x.org/logo.png")] :=
  C2_storage_key_derivation.2.2.2.2 cfgDemo effAllOk orgUnikraft
    "https://x.org/logo.png" "unikraft" 5 dbDemo rfl (by decide) rfl
    (by decide) rfl rfl rfl

/-- Claim C8: in the download-only tool, an eligible record whose derived
file already exists is reported successful without downloading when the
force flag is off, and is re-downloaded (the file overwritten with the fresh
content) when the force flag is on. -/
theorem C8_download_only_skip_and_force
    (eff : DlEffects) (fs : FileSys) (org : OrgDoc) (url slug : String)
    (hu : pyOr (pyStr org.image_url) (pyStr org.logoUrl) = some url)
    (hu0 : url ≠ "") (hs : pyStr org.image_slug = some slug)
    (hs0 : slug ≠ "") :
    (fs.hasFile (slug ++ get_extension_from_url url) = true →
      dl_process_organization eff fs org false = ⟨true, fs, false⟩)
    ∧ (eff.downloadOk = true →
      dl_process_organization eff fs org true
        = ⟨true, fs.write (slug ++ get_extension_from_url url)
            eff.downloadContent, true⟩
      ∧ (fs.write (slug ++ get_extension_from_url url)
          eff.downloadContent).read (slug ++ get_extension_from_url url)
        = some eff.downloadContent) := by
  have hu' : (url == "") = false := by simp [hu0]
  have hs' : (slug == "") = false := by simp [hs0]
  constructor
  · intro hex
    simp [dl_process_organization, hu, hs, truthy, hu', hs', hex]
  · intro hd
    refine ⟨?_, FileSys.read_write _ _ _⟩
    simp [dl_process_organization, hu, hs, truthy, hu', hs', hd]

/-- Witness for C8: with `unikraft.png` already on disk, no-force returns
success leaving the directory unchanged, and force rewrites the file. -/
theorem C8_download_only_skip_and_force_witness :
    dl_process_organization dlEffDemo fsDemo orgUnikraft false
      = ⟨true, fsDemo, false⟩
    ∧ dl_process_organization dlEffDemo fsDemo orgUnikraft true
      = ⟨true, fsDemo.write
          ("unikraft" ++ get_extension_from_url "https://x.org/logo.png")
          dlEffDemo.downloadContent, true⟩ :=
  ⟨(C8_download_only_skip_and_force dlEffDemo fsDemo orgUnikraft
      "https://x.org/logo.png" "unikraft" rfl (by decide) rfl
      (by decide)).1 (by decide),
   ((C8_download_only_skip_and_force dlEffDemo fsDemo orgUnikraft
      "https://x.org/logo.png" "unikraft" rfl (by decide) rfl
      (by decide)).2 rfl).1⟩

/-- Helper: the table lookup of `get_content_type`, written out over an
arbitrary extension. -/
theorem content_type_of_ext (e : String) :
    ((mimeMapping.find? (fun p => p.1 == e)).map (fun p => p.2)).getD
        "image/png"
      = (if e = ".png" then "image/png"
         else if e = ".jpg" then "image/jpeg"
         else if e = ".jpeg" then "image/jpeg"
         else if e = ".gif" then "image/gif"
         else if e = ".svg" then "image/svg+xml"
         else if e = ".webp" then "image/webp"
         else "image/png") := by
  by_cases h1 : e = ".png"
  · subst h1; decide
  by_cases h2 : e = ".jpg"
  · subst h2; decide
  by_cases h3 : e = ".jpeg"
  · subst h3; decide
  by_cases h4 : e = ".gif"
  · subst h4; decide
  by_cases h5 : e = ".svg"
  · subst h5; decide
  by_cases h6 : e = ".webp"
  · subst h6; decide
  have g1 : (".png" == e) = false := by
    rw [beq_eq_false_iff_ne]; exact Ne.symm h1
  have g2 : (".jpg" == e) = false := by
    rw [beq_eq_false_iff_ne]; exact Ne.symm h2
  have g3 : (".jpeg" == e) = false := by
    rw [beq_eq_false_iff_ne]; exact Ne.symm h3
  have g4 : (".gif" == e) = false := by
    rw [beq_eq_false_iff_ne]; exact Ne.symm h4
  have g5 : (".svg" == e) = false := by
    rw [beq_eq_false_iff_ne]; exact Ne.symm h5
  have g6 : (".webp" == e) = false := by
    rw [beq_eq_false_iff_ne]; exact Ne.symm h6
  simp [mimeMapping, List.find?, g1, g2, g3, g4, g5, g6, h1, h2, h3, h4, h5, h6]

/-- Claim C9: the content type is given by the fixed extension table with
`image/png` as the default, agrees with the spec's `deriveContentType`, and
is a pure function of the lowercased URL-path extension. -/
theorem C9_content_type_table :
    get_content_type "https://x.org/a.jpeg" = "image/jpeg"
    ∧ get_content_type "https://x.org/a.webp" = "image/webp"
    ∧ get_content_type "https://x.org/a.bmp" = "image/png"
    ∧ get_content_type "https://x.org/a" = "image/png"
    ∧ (∀ url, get_content_type url = deriveContentType_spec url)
    ∧ (∀ u1 u2, url_ext u1 = url_ext u2 →
        get_content_type u1 = get_content_type u2) := by
  refine ⟨by decide, by decide, by decide, by decide, ?_, ?_⟩
  · intro url
    simp only [get_content_type, deriveContentType_spec]
    exact content_type_of_ext (url_ext url)
  · intro u1 u2 h
    simp only [get_content_type]
    rw [h]

/-- Witness for C9: two URLs sharing the lowercased extension `.gif` get the
same content type. -/
theorem C9_content_type_table_witness :
    url_ext "https://a.io/x.gif" = url_ext "https://b.io/y.GIF"
    ∧ get_content_type "https://a.io/x.gif"
        = get_content_type "https://b.io/y.GIF" :=
  ⟨by decide, C9_content_type_table.2.2.2.2.2 "https://a.io/x.gif"
    "https://b.io/y.GIF" (by decide)⟩

/-- Claim C10: for a recognized or absent extension, the extension embedded
in the storage key and the uploaded content type agree through the fixed
table; for the unrecognized `.bmp` the key keeps `.bmp` while the content
type falls back to `image/png`, so the two disagree. -/
theorem C10_key_and_content_type_agreement :
    (∀ url, url_ext url = "" ∨ (mimeOfExt (url_ext url)).isSome = true →
        mimeOfExt (get_extension_from_url url) = some (get_content_type url))
    ∧ (∀ slug url,
        generate_r2_key slug url = slug ++ get_extension_from_url url)
    ∧ get_extension_from_url "https://x.org/logo.bmp" = ".bmp"
    ∧ get_content_type "https://x.org/logo.bmp" = "image/png"
    ∧ mimeOfExt ".bmp" = none
    ∧ mimeOfExt (get_extension_from_url "https://x.org/logo.bmp")
        ≠ some (get_content_type "https://x.org/logo.bmp") := by
  refine ⟨?_, fun slug url => rfl, by decide, by decide, by decide, by decide⟩
  intro url h
  rcases h with h | h
  · simp only [get_extension_from_url, get_content_type, mimeOfExt]
    rw [h]
    decide
  · have hne : (url_ext url == "") = false := by
      rcases hq : url_ext url == "" with _ | _
      · rfl
      · rw [show url_ext url = "" from by simpa using hq] at h
        simp [mimeOfExt, mimeMapping, List.find?] at h
    obtain ⟨m, hm⟩ := Option.isSome_iff_exists.mp h
    simp only [get_extension_from_url, hne, Bool.false_eq_true, if_false]
    rw [hm]
    simp only [get_content_type, mimeOfExt] at hm ⊢
    rw [show ((mimeMapping.find? (fun p => p.1 == url_ext url)).map
        (fun p => p.2)) = some m from hm]
    rfl

/-- Witness for C10: the `.svg` extension agrees between key and content
type. -/
theorem C10_key_and_content_type_agreement_witness :
    (url_ext "https://x.org/logo.svg" = ""
      ∨ (mimeOfExt (url_ext "https://x.org/logo.svg")).isSome = true)
    ∧ mimeOfExt (get_extension_from_url "https://x.org/logo.svg")
        = some (get_content_type "https://x.org/logo.svg") :=
  ⟨Or.inr (by decide), C10_key_and_content_type_agreement.1
    "https://x.org/logo.svg" (Or.inr (by decide))⟩

end LogoManager
